import Mathlib

/-!
Verification development for the Meshery meshsync data handler and the
Meshery controllers helper.  The Go sources (the meshsync data-handler file
and models/meshery_controllers.go) are shallowly embedded: database and
broker collaborators are passed in as explicit operation tables, stateful
code threads its state, and every side effect the code performs (lock,
create, update, delete, table drop/create, goroutine start, publish) is
recorded in an explicit trace so that ordering claims can be stated.
-/

namespace Meshery

/-- Errors surfaced by external collaborators (database engine, broker,
kube client) are opaque to the embedded code; they are modelled as strings. -/
abbrev Err := String

/-- Modelled from the spec: the meta sub-part of a ResourceObject
(meshsyncmodel.ResourceObjectMeta), carrying the name and namespace that,
together with the kind, identify the persisted row. -/
structure ResourceObjectMeta where
  name : String
  ns : String
deriving DecidableEq

/-- Modelled from the spec: meshsyncmodel.Object (the ResourceObject), the
unit of persisted state: identity (kind and meta) plus opaque spec/status
payloads and auxiliary key/value pairs. -/
structure Object where
  kind : String
  objectMeta : ResourceObjectMeta
  specData : String
  statusData : String
  keyValues : List (String × String)
deriving DecidableEq

/-- The composite identity under which a ResourceObject is persisted
(kind, namespace, name) inside one accumulator's context scope. -/
structure ObjectKey where
  kind : String
  ns : String
  name : String
deriving DecidableEq

def objKey (o : Object) : ObjectKey :=
  ⟨o.kind, o.objectMeta.ns, o.objectMeta.name⟩

/-- The event tags of broker.Message (broker.Add, broker.Update,
broker.Delete, broker.ErrorEvent). -/
inductive EventType where
  | add
  | update
  | delete
  | errorEvent
deriving DecidableEq

/-- One element of a store-snapshot slice (an interface value that either
decodes into a ResourceObject or does not). -/
inductive StoreItem where
  | obj (o : Object)
  | undecodable
deriving DecidableEq

/-- The dynamic payload carried in broker.Message.Object: a ResourceObject,
an error value, a slice of snapshot items, or some other shape. -/
inductive Payload where
  | obj (o : Object)
  | errVal (e : Err)
  | items (xs : List StoreItem)
  | other
deriving DecidableEq

/-- A broker.Message as consumed by the two subscriber loops. -/
structure Message where
  eventType : EventType
  object : Payload
deriving DecidableEq

/-- Modelled from the spec: utils.Marshal of a dynamic payload followed by
utils.Unmarshal into a meshsyncmodel.Object succeeds exactly when the payload
is a ResourceObject. -/
def unmarshalObject : Payload → Option Object
  | .obj o => some o
  | _ => none

/-- Modelled from the spec: decoding one element of a snapshot slice into a
meshsyncmodel.Object. -/
def unmarshalStoreItem : StoreItem → Option Object
  | .obj o => some o
  | .undecodable => none

/-- The five tables backing a ResourceObject, dropped and recreated together
by the cold-start reset. -/
inductive Table where
  | keyValue
  | object
  | resourceSpec
  | resourceStatus
  | resourceObjectMeta
deriving DecidableEq

/-- The exact table list passed to DropTable and CreateTable in
removeStaleObjects, in source order. -/
def fiveTables : List Table :=
  [.keyValue, .object, .resourceSpec, .resourceStatus, .resourceObjectMeta]

/-- One storage-handle operation performed by the data handler, recorded in
the trace in the order the Go code performs it. -/
inductive DBOp where
  | lock
  | unlock
  | create (o : Object)
  | updatesFullSave (o : Object)
  | delete (o : Object)
  | dropTable (ts : List Table)
  | createTable (ts : List Table)
deriving DecidableEq

/-- The database.Handler collaborator: the outcome of each storage operation
on a state of type σ.  The Go code only observes the returned error. -/
structure DBExec (σ : Type) where
  create : σ → Object → σ × Option Err
  updatesFullSave : σ → Object → σ × Option Err
  delete : σ → Object → σ × Option Err
  dropTable : σ → List Table → σ × Option Err
  createTable : σ → List Table → σ × Option Err

/-- Result of one accumulator persistence call: the storage state, the trace
of storage operations performed, and the returned error. -/
structure AccResult (σ : Type) where
  state : σ
  ops : List DBOp
  error : Option Err
deriving DecidableEq

variable {σ : Type}

/-- Embedding of MeshsyncDataHandler.meshsyncEventsAccumulator: lock, decode
the payload into a ResourceObject (returning the decode error on failure),
then dispatch on the event tag — Add/Update create the row and fall back to a
full update (FullSaveAssociations) when the create errors, Delete deletes the
row, and any other tag falls through the switch; the deferred unlock closes
every path. -/
def meshsyncEventsAccumulator (e : DBExec σ) (s : σ) (event : Message) :
    AccResult σ :=
  match unmarshalObject event.object with
  | none => ⟨s, [.lock, .unlock], some "unmarshal error"⟩
  | some obj =>
    match event.eventType with
    | .add | .update =>
      let r1 := e.create s obj
      match r1.2 with
      | some _ =>
        let r2 := e.updatesFullSave r1.1 obj
        match r2.2 with
        | some er => ⟨r2.1, [.lock, .create obj, .updatesFullSave obj, .unlock], some er⟩
        | none => ⟨r2.1, [.lock, .create obj, .updatesFullSave obj, .unlock], none⟩
      | none => ⟨r1.1, [.lock, .create obj, .unlock], none⟩
    | .delete =>
      let r := e.delete s obj
      match r.2 with
      | some er => ⟨r.1, [.lock, .delete obj, .unlock], some er⟩
      | none => ⟨r.1, [.lock, .delete obj, .unlock], none⟩
    | .errorEvent => ⟨s, [.lock, .unlock], none⟩

/-- Embedding of MeshsyncDataHandler.persistStoreUpdate: lock, create the
row, fall back to a full update (FullSaveAssociations) when the create
errors, unlock on every path. -/
def persistStoreUpdate (e : DBExec σ) (s : σ) (object : Object) :
    AccResult σ :=
  let r1 := e.create s object
  match r1.2 with
  | some _ =>
    let r2 := e.updatesFullSave r1.1 object
    match r2.2 with
    | some er => ⟨r2.1, [.lock, .create object, .updatesFullSave object, .unlock], some er⟩
    | none => ⟨r2.1, [.lock, .create object, .updatesFullSave object, .unlock], none⟩
  | none => ⟨r1.1, [.lock, .create object, .unlock], none⟩

/-- Embedding of MeshsyncDataHandler.removeStaleObjects: lock, drop the five
tables (returning the error on failure), recreate the five tables (returning
the error on failure), unlock on every path. -/
def removeStaleObjects (e : DBExec σ) (s : σ) : AccResult σ :=
  let r1 := e.dropTable s fiveTables
  match r1.2 with
  | some er => ⟨r1.1, [.lock, .dropTable fiveTables, .unlock], some er⟩
  | none =>
    let r2 := e.createTable r1.1 fiveTables
    match r2.2 with
    | some er =>
      ⟨r2.1, [.lock, .dropTable fiveTables, .createTable fiveTables, .unlock], some er⟩
    | none =>
      ⟨r2.1, [.lock, .dropTable fiveTables, .createTable fiveTables, .unlock], none⟩

/-- The NATS subject constant MeshsyncStoreUpdatesSubject. -/
def MeshsyncStoreUpdatesSubject : String := "meshery-server.meshsync.store"

/-- The subject subsribeToStoreUpdates passes to SubscribeWithChannel. -/
def storeUpdatesSubscribeSubject : String := MeshsyncStoreUpdatesSubject

/-- The subject the live-event loop subscribes to. -/
def meshsyncEventsSubject : String := "meshery.meshsync.core"

/-- The subject requestMeshsyncStore publishes to. -/
def meshsyncRequestSubject : String := "meshery.meshsync.request"

/-- The broker.RequestObject built by requestMeshsyncStore: an entity name
plus the reply-subject payload. -/
structure RequestObject where
  entity : String
  reply : String
deriving DecidableEq

/-- The literal request message requestMeshsyncStore publishes: entity
"informer-store" with the reply subject written as a string literal in the
source. -/
def requestMeshsyncStoreMessage : RequestObject :=
  ⟨"informer-store", "meshery-server.meshsync.store"⟩

/-- One observable action of MeshsyncDataHandler.Run: a storage operation
(from the cold-start reset), the start of one of the two subscriber
goroutines, or a broker publish. -/
inductive RunAction where
  | dbOp (op : DBOp)
  | startStoreUpdatesLoop
  | startEventsLoop
  | publish (subject : String) (req : RequestObject)
deriving DecidableEq

/-- Result of MeshsyncDataHandler.Run: the storage state, the trace of
actions performed in order, and the returned error. -/
structure RunResult (σ : Type) where
  state : σ
  acts : List RunAction
  error : Option Err
deriving DecidableEq

/-- Embedding of MeshsyncDataHandler.requestMeshsyncStore: publish the
full-sync request on the request subject; the publish outcome comes from the
broker collaborator. -/
def requestMeshsyncStore (pubErr : Option Err) : List RunAction × Option Err :=
  ([.publish meshsyncRequestSubject requestMeshsyncStoreMessage], pubErr)

/-- Embedding of MeshsyncDataHandler.Run: run removeStaleObjects first and
return its error on failure; otherwise start the store-updates goroutine and
the events goroutine, then publish the full-sync request, returning the
publish outcome. -/
def Run (e : DBExec σ) (pubErr : Option Err) (s : σ) : RunResult σ :=
  let r := removeStaleObjects e s
  match r.error with
  | some er => ⟨r.state, r.ops.map .dbOp, some er⟩
  | none =>
    let p := requestMeshsyncStore pubErr
    ⟨r.state, r.ops.map .dbOp ++ [.startStoreUpdatesLoop, .startEventsLoop] ++ p.1, p.2⟩

/-- Outcome of handling one delivered message in a subscriber loop: the loop
either continues with the next message or the goroutine panics. -/
inductive StepOutcome (σ : Type) where
  | next (s : σ)
  | panicked
deriving DecidableEq

/-- Embedding of one iteration of subscribeToMeshsyncEvents: an Error-tagged
event is logged through the unchecked assertion event.Object.(error) — which
panics when the payload is not an error value — and skipped; every other
event goes to meshsyncEventsAccumulator, whose error is logged and the loop
continues. -/
def subscribeToMeshsyncEventsStep (e : DBExec σ) (s : σ) (event : Message) :
    StepOutcome σ :=
  if event.eventType = .errorEvent then
    match event.object with
    | .errVal _ => .next s
    | _ => .panicked
  else
    .next (meshsyncEventsAccumulator e s event).state

/-- Embedding of one iteration of subsribeToStoreUpdates: an Error-tagged
message is logged through the unchecked assertion storeUpdate.Object.(error);
any other message is cast by storeUpdate.Object.([]interface\x7b\x7d) — which
panics when the payload is not a slice — and each element is decoded (decode
failures logged and skipped) and persisted with persistStoreUpdate (write
failures logged and skipped). -/
def subsribeToStoreUpdatesStep (e : DBExec σ) (s : σ) (storeUpdate : Message) :
    StepOutcome σ :=
  if storeUpdate.eventType = .errorEvent then
    match storeUpdate.object with
    | .errVal _ => .next s
    | _ => .panicked
  else
    match storeUpdate.object with
    | .items xs =>
      .next (xs.foldl (fun acc it =>
        match unmarshalStoreItem it with
        | none => acc
        | some o => (persistStoreUpdate e acc o).state) s)
    | _ => .panicked

/-! ## A concrete model of the relational engine

Modelled from the spec: the relational store keeps at most one row per
(kind, namespace, name) key inside one accumulator's context scope; Create
fails with a uniqueness conflict exactly when a row with the key already
exists, a full update rewrites the row with the matching key (and is not an
error when no row matches), Delete removes the matching row, and the
cold-start table operations wipe, respectively recreate, the schema. -/

/-- The primary resource table of one accumulator's scope, as a row list. -/
abbrev MeshDB := List Object

/-- Number of persisted rows carrying a given key. -/
def rowsForKey (s : MeshDB) (k : ObjectKey) : Nat :=
  s.countP (fun r => decide (objKey r = k))

/-- The representation invariant the unique index enforces: at most one row
per key. -/
def DBWF (s : MeshDB) : Prop :=
  ∀ k, rowsForKey s k ≤ 1

/-- Modelled from the spec: Create fails with a uniqueness conflict exactly
when a row with the object's key already exists, and otherwise appends the
row. -/
def dbCreate (s : MeshDB) (o : Object) : MeshDB × Option Err :=
  if s.any (fun r => decide (objKey r = objKey o)) then
    (s, some "UNIQUE constraint failed")
  else
    (s ++ [o], none)

/-- Modelled from the spec: a full update (FullSaveAssociations) rewrites
every sub-part of the row with the matching key; updating an absent key
affects no row and is not an error. -/
def dbUpdatesFullSave (s : MeshDB) (o : Object) : MeshDB × Option Err :=
  (s.map (fun r => if objKey r = objKey o then o else r), none)

/-- Modelled from the spec: Delete removes the row with the matching key;
deleting an absent key is not an error. -/
def dbDelete (s : MeshDB) (o : Object) : MeshDB × Option Err :=
  (s.filter (fun r => decide (¬ objKey r = objKey o)), none)

/-- Modelled from the spec: dropping the schema discards every row. -/
def dbDropTable (_s : MeshDB) (_ts : List Table) : MeshDB × Option Err :=
  ([], none)

/-- Modelled from the spec: recreating the schema of an empty store. -/
def dbCreateTable (s : MeshDB) (_ts : List Table) : MeshDB × Option Err :=
  (s, none)

/-- The relational-engine operation table over MeshDB. -/
def meshDBExec : DBExec MeshDB :=
  ⟨dbCreate, dbUpdatesFullSave, dbDelete, dbDropTable, dbCreateTable⟩

/-- A concrete ResourceObject used to instantiate hypotheses. -/
def sampleObject : Object :=
  ⟨"Pod", ⟨"nginx", "default"⟩, "specpayload", "statuspayload", [("label", "web")]⟩

/-! ## The controllers helper (models/meshery_controllers.go) -/

/-- The MesheryController enumeration (MesheryBroker, Meshsync,
MesheryOperator). -/
inductive MesheryController where
  | mesheryBroker
  | meshsync
  | mesheryOperator
deriving DecidableEq

/-- The controllers.MesheryControllerStatus enumeration; NotDeployed and
Deployed are the load-bearing values. -/
inductive MesheryControllerStatus where
  | deployed
  | notDeployed
  | deploying
  | unknown
deriving DecidableEq

/-- A cluster client (mesherykube.Client); the remote cluster's observable
behavior reached through this client — broker endpoint lookup, operator
status and deploy outcome — is carried on the client value so handles bound
to the client expose it. -/
structure Client where
  cid : Nat
  brokerEndpoint : String
  brokerEndpointErr : Option Err
  operatorStatus : MesheryControllerStatus
  operatorDeployErr : Option Err
deriving DecidableEq

/-- A controllers.IMesheryController handle bound to one cluster client. -/
structure IMesheryControllerHandle where
  client : Client
deriving DecidableEq

/-- GetPublicEndpoint on a handle. -/
def handleGetPublicEndpoint (h : IMesheryControllerHandle) : String × Option Err :=
  (h.client.brokerEndpoint, h.client.brokerEndpointErr)

/-- GetStatus on a handle. -/
def handleGetStatus (h : IMesheryControllerHandle) : MesheryControllerStatus :=
  h.client.operatorStatus

/-- Deploy on a handle: the returned error. -/
def handleDeploy (h : IMesheryControllerHandle) : Option Err :=
  h.client.operatorDeployErr

/-- One context's value in ctxControllerHandlersMap: the controller-kind to
handle association. -/
abbrev CtrlHandlersEntry := List (MesheryController × IMesheryControllerHandle)

/-- First-match association-list lookup, the model of a Go map read. -/
def alookup {α β : Type} [DecidableEq α] : List (α × β) → α → Option β
  | [], _ => none
  | (k, v) :: rest, a => if k = a then some v else alookup rest a

/-- An opaque kube config value. -/
structure KubeConfig where
  raw : Nat
deriving DecidableEq

/-- A registered cluster context: identifier plus the outcome of
GenerateKubeConfig on its credentials. -/
structure K8sContext where
  id : String
  cfg : KubeConfig
  genErr : Option Err
deriving DecidableEq

/-- K8sContext.GenerateKubeConfig: the config together with an error that
the caller in UpdateCtxControllerHandlers overwrites without checking. -/
def GenerateKubeConfig (c : K8sContext) : KubeConfig × Option Err :=
  (c.cfg, c.genErr)

/-- Embedding of MesheryControllersHelper.UpdateCtxControllerHandlers: for
each supplied context not yet in the map, generate its kube config (the
error of which is shadowed), build a cluster client, skip the context when
client construction fails, and otherwise store the three-handle entry
(MesheryBroker, MesheryOperator, Meshsync) bound to that client. -/
def UpdateCtxControllerHandlers (newClient : KubeConfig → Except Err Client)
    (m : List (String × CtrlHandlersEntry)) (ctxs : List K8sContext) :
    List (String × CtrlHandlersEntry) :=
  ctxs.foldl (fun acc ctx =>
    if (alookup acc ctx.id).isSome then acc
    else
      let cfg := (GenerateKubeConfig ctx).1
      match newClient cfg with
      | .error _ => acc
      | .ok client =>
        acc ++ [(ctx.id,
          [(.mesheryBroker, ⟨client⟩),
           (.mesheryOperator, ⟨client⟩),
           (.meshsync, ⟨client⟩)])]) m

/-- Result of one DeployUndeployedOperators pass: the contexts for which
Deploy was invoked, in iteration order, and the deploy errors logged. -/
structure DeployPassResult where
  invoked : List String
  loggedErrors : List Err
deriving DecidableEq

/-- Embedding of MesheryControllersHelper.DeployUndeployedOperators: for
each context in the controller map whose cached operator status is
NotDeployed, invoke Deploy on its operator handle, logging (not propagating)
a deploy error; a missing operator handle would be a nil-interface method
call, modelled as the panic outcome none. -/
def deployUndeployedLoop (statuses : List (String × MesheryControllerStatus)) :
    List (String × CtrlHandlersEntry) → Option DeployPassResult
  | [] => some ⟨[], []⟩
  | (ctxId, entry) :: rest =>
    match alookup statuses ctxId with
    | some st =>
      if st = .notDeployed then
        match alookup entry .mesheryOperator with
        | none => none
        | some h =>
          match deployUndeployedLoop statuses rest with
          | none => none
          | some r =>
            some ⟨ctxId :: r.invoked,
              match handleDeploy h with
              | some er => er :: r.loggedErrors
              | none => r.loggedErrors⟩
      else deployUndeployedLoop statuses rest
    | none => deployUndeployedLoop statuses rest

/-- Whether a context's controller-map entry is eligible for Deploy in this
pass: its cached status equals NotDeployed. -/
def eligibleForDeploy (statuses : List (String × MesheryControllerStatus))
    (p : String × CtrlHandlersEntry) : Bool :=
  decide (alookup statuses p.1 = some MesheryControllerStatus.notDeployed)

/-! ## UpdateMeshsynDataHandlers -/

/-- A broker connection returned by nats.New: its publish behavior. -/
structure NatsConn where
  pubErr : Option Err
deriving DecidableEq

/-- The stored MeshsyncDataHandler value for a context: the broker
connection it owns. -/
structure MeshsyncDataHandlerM where
  conn : NatsConn
deriving DecidableEq

/-- The record of one MeshsyncDataHandler that was constructed and Run
during an UpdateMeshsynDataHandlers pass: the context, whether Run started
the subscriber goroutines, and the error Run returned. -/
structure CreatedRec where
  ctxId : String
  loopsStarted : Bool
  runError : Option Err
deriving DecidableEq

/-- Result of one UpdateMeshsynDataHandlers pass. -/
structure AttachResult (σ : Type) where
  handlerMap : List (String × MeshsyncDataHandlerM)
  dbState : σ
  created : List CreatedRec
deriving DecidableEq

/-- Embedding of MesheryControllersHelper.UpdateMeshsynDataHandlers: for
each context in the controller map with no meshsync data handler yet, read
the broker handle's public endpoint (a missing broker handle would be a
nil-interface method call, modelled as the panic outcome none), skip the
context when the endpoint is empty or the NATS connection fails, otherwise
construct a handler, Run it against the shared storage handle, skip the
context when Run errors, and store the handler only after Run succeeds. -/
def updateMeshsynLoop (natsNew : String → Except Err NatsConn) (e : DBExec σ) :
    List (String × CtrlHandlersEntry) → List (String × MeshsyncDataHandlerM) →
    σ → Option (AttachResult σ)
  | [], hmap, s => some ⟨hmap, s, []⟩
  | (ctxId, handlers) :: rest, hmap, s =>
    if (alookup hmap ctxId).isSome then
      updateMeshsynLoop natsNew e rest hmap s
    else
      match alookup handlers .mesheryBroker with
      | none => none
      | some bh =>
        let ep := handleGetPublicEndpoint bh
        if ep.1 = "" then
          updateMeshsynLoop natsNew e rest hmap s
        else
          match natsNew ep.1 with
          | .error _ => updateMeshsynLoop natsNew e rest hmap s
          | .ok conn =>
            let runR := Run e conn.pubErr s
            let crec : CreatedRec :=
              ⟨ctxId, decide (RunAction.startEventsLoop ∈ runR.acts), runR.error⟩
            match runR.error with
            | some _ =>
              match updateMeshsynLoop natsNew e rest hmap runR.state with
              | none => none
              | some r => some ⟨r.handlerMap, r.dbState, crec :: r.created⟩
            | none =>
              match updateMeshsynLoop natsNew e rest (hmap ++ [(ctxId, ⟨conn⟩)]) runR.state with
              | none => none
              | some r => some ⟨r.handlerMap, r.dbState, crec :: r.created⟩

/-! ## checkLatestVersion -/

/-- The wrapper ErrCreateOperatorDeploymentConfig applied to the lookup
error before it is returned. -/
def errCreateOperatorDeploymentConfig (e : Err) : Err :=
  "ErrCreateOperatorDeploymentConfig: " ++ e

/-- Embedding of checkLatestVersion over the result of the release-tag
lookup (the returned version list and error): the source indexes
versions[len(versions)-1] before checking the lookup error, so an empty
version list is an out-of-range panic, modelled as the outcome none;
otherwise the lookup error is returned wrapped, and the last version is
compared against the server version. -/
def checkLatestVersion (serverVersion : String) (versions : List String)
    (lookupErr : Option Err) : Option (Option Bool × String × Option Err) :=
  match versions.getLast? with
  | none => none
  | some latestVersion =>
    match lookupErr with
    | some e => some (none, "", some (errCreateOperatorDeploymentConfig e))
    | none =>
      if latestVersion ≠ serverVersion then some (some true, latestVersion, none)
      else some (some false, latestVersion, none)

/-- The deploy error the pass logs for one controller-map entry, when its
operator handle is present. -/
def deployErrOf (p : String × CtrlHandlersEntry) : Option Err :=
  match alookup p.2 MesheryController.mesheryOperator with
  | some h => handleDeploy h
  | none => none

/-! ## Concrete fixtures used to instantiate hypotheses -/

/-- A cluster whose operator is not deployed and whose Deploy fails. -/
def sampleClientFail : Client := ⟨1, "nats-1:4222", none, .notDeployed, some "deploy boom"⟩

/-- A cluster whose operator is not deployed and whose Deploy succeeds. -/
def sampleClientOk : Client := ⟨2, "nats-2:4222", none, .notDeployed, none⟩

/-- A cluster whose operator is already deployed. -/
def sampleClientDeployed : Client := ⟨3, "nats-3:4222", none, .deployed, none⟩

/-- A three-handle controller-map entry bound to one client. -/
def entryFor (c : Client) : CtrlHandlersEntry :=
  [(.mesheryBroker, ⟨c⟩), (.mesheryOperator, ⟨c⟩), (.meshsync, ⟨c⟩)]

/-- A cached status map: c1 and c3 not deployed, c2 deployed, c4 absent. -/
def sampleStatuses : List (String × MesheryControllerStatus) :=
  [("c1", .notDeployed), ("c2", .deployed), ("c3", .notDeployed)]

/-- A controller map with four registered contexts. -/
def sampleCtrlMap : List (String × CtrlHandlersEntry) :=
  [("c1", entryFor sampleClientFail),
   ("c2", entryFor sampleClientDeployed),
   ("c3", entryFor sampleClientOk),
   ("c4", entryFor sampleClientOk)]

/-- A client constructor that rejects the zero config and accepts others. -/
def sampleNewClient : KubeConfig → Except Err Client :=
  fun cfg => if cfg.raw = 0 then .error "invalid config"
             else .ok ⟨cfg.raw, "nats-x:4222", none, .unknown, none⟩

/-- Two contexts: one with invalid credentials, one valid. -/
def sampleCtxs : List K8sContext :=
  [⟨"bad", ⟨0⟩, some "gen failed"⟩, ⟨"good", ⟨5⟩, none⟩]

/-- A NATS constructor whose connections fail every publish. -/
def pubFailNats : String → Except Err NatsConn := fun _ => .ok ⟨some "publish failed"⟩

/-- A NATS constructor whose connections publish successfully. -/
def okNats : String → Except Err NatsConn := fun _ => .ok ⟨none⟩

/-- A one-context controller map for the accumulator-attachment pass. -/
def c6CtrlMap : List (String × CtrlHandlersEntry) :=
  [("ctx1", entryFor sampleClientOk)]

/-- Invoking the attachment pass twice in sequence (two orchestration
passes over the same controller map), collecting every handler constructed
and Run across both invocations. -/
def attachTwice (natsNew : String → Except Err NatsConn) (e : DBExec σ)
    (ctxCtrl : List (String × CtrlHandlersEntry))
    (hmap : List (String × MeshsyncDataHandlerM)) (s : σ) :
    Option (AttachResult σ) :=
  match updateMeshsynLoop natsNew e ctxCtrl hmap s with
  | none => none
  | some r1 =>
    match updateMeshsynLoop natsNew e ctxCtrl r1.handlerMap r1.dbState with
    | none => none
    | some r2 => some ⟨r2.handlerMap, r2.dbState, r1.created ++ r2.created⟩

/-! ## Helper lemmas -/

/-- On an Add or Update event with a decodable payload, the live-event
persistence step is literally the snapshot persistence step. -/
lemma accumulator_eq_persist (e : DBExec σ) (s : σ) (t : EventType) (o : Object)
    (h : t = EventType.add ∨ t = EventType.update) :
    meshsyncEventsAccumulator e s ⟨t, .obj o⟩ = persistStoreUpdate e s o := by
  rcases h with rfl | rfl <;> rfl

/-- persistStoreUpdate when the create succeeds. -/
lemma persist_create_ok (e : DBExec σ) (s : σ) (o : Object)
    (h : (e.create s o).2 = none) :
    persistStoreUpdate e s o = ⟨(e.create s o).1, [.lock, .create o, .unlock], none⟩ := by
  rcases hc : e.create s o with ⟨s1, e1⟩
  rw [hc] at h
  subst h
  simp [persistStoreUpdate, hc]

/-- persistStoreUpdate when the create fails: the full update runs and its
outcome is returned. -/
lemma persist_create_fails (e : DBExec σ) (s : σ) (o : Object) (er : Err)
    (h : (e.create s o).2 = some er) :
    persistStoreUpdate e s o =
      ⟨(e.updatesFullSave (e.create s o).1 o).1,
       [.lock, .create o, .updatesFullSave o, .unlock],
       (e.updatesFullSave (e.create s o).1 o).2⟩ := by
  rcases hc : e.create s o with ⟨s1, e1⟩
  rw [hc] at h
  subst h
  rcases hu : e.updatesFullSave s1 o with ⟨s2, e2⟩
  cases e2 <;> simp [persistStoreUpdate, hc, hu]

/-! ## Claim theorems -/

/-- C1: for every Add or Update event processed by the accumulator, the
persistence step first attempts to create the decoded ResourceObject's row;
exactly when that create fails it falls back to a full update with all
associated sub-parts, and the operation errors exactly when both the create
and the fallback update fail. -/
theorem c1_addUpdate_upsert (e : DBExec σ) (s : σ) (t : EventType) (o : Object)
    (h : t = EventType.add ∨ t = EventType.update) :
    ((e.create s o).2 = none →
      meshsyncEventsAccumulator e s ⟨t, .obj o⟩ =
        ⟨(e.create s o).1, [.lock, .create o, .unlock], none⟩) ∧
    (∀ er, (e.create s o).2 = some er →
      meshsyncEventsAccumulator e s ⟨t, .obj o⟩ =
        ⟨(e.updatesFullSave (e.create s o).1 o).1,
         [.lock, .create o, .updatesFullSave o, .unlock],
         (e.updatesFullSave (e.create s o).1 o).2⟩) ∧
    ((meshsyncEventsAccumulator e s ⟨t, .obj o⟩).error.isSome ↔
      ((e.create s o).2.isSome ∧ (e.updatesFullSave (e.create s o).1 o).2.isSome)) := by
  rw [accumulator_eq_persist e s t o h]
  refine ⟨fun hc => persist_create_ok e s o hc, fun er hc => persist_create_fails e s o er hc, ?_⟩
  rcases hc : (e.create s o).2 with _ | er
  · rw [persist_create_ok e s o hc]
    simp [hc]
  · rw [persist_create_fails e s o er hc]
    simp [hc]

/-- Witness for C1 at a concrete input: on the empty store the create
succeeds, so the row is appended with no fallback update and no error. -/
theorem c1_addUpdate_upsert_witness :
    (EventType.add = EventType.add ∨ EventType.add = EventType.update) ∧
    (((meshDBExec.create ([] : MeshDB) sampleObject).2 = none →
      meshsyncEventsAccumulator meshDBExec ([] : MeshDB) ⟨.add, .obj sampleObject⟩ =
        ⟨(meshDBExec.create ([] : MeshDB) sampleObject).1,
         [.lock, .create sampleObject, .unlock], none⟩) ∧
    (∀ er, (meshDBExec.create ([] : MeshDB) sampleObject).2 = some er →
      meshsyncEventsAccumulator meshDBExec ([] : MeshDB) ⟨.add, .obj sampleObject⟩ =
        ⟨(meshDBExec.updatesFullSave (meshDBExec.create ([] : MeshDB) sampleObject).1 sampleObject).1,
         [.lock, .create sampleObject, .updatesFullSave sampleObject, .unlock],
         (meshDBExec.updatesFullSave (meshDBExec.create ([] : MeshDB) sampleObject).1 sampleObject).2⟩) ∧
    ((meshsyncEventsAccumulator meshDBExec ([] : MeshDB) ⟨.add, .obj sampleObject⟩).error.isSome ↔
      ((meshDBExec.create ([] : MeshDB) sampleObject).2.isSome ∧
       (meshDBExec.updatesFullSave (meshDBExec.create ([] : MeshDB) sampleObject).1 sampleObject).2.isSome))) :=
  ⟨Or.inl rfl, c1_addUpdate_upsert meshDBExec [] EventType.add sampleObject (Or.inl rfl)⟩

/-- C8: persisting a ResourceObject through the snapshot path has exactly
the same store effect, operation trace (including the exclusive lock) and
error result as processing a live Add or Update event carrying it. -/
theorem c8_snapshot_live_equivalence (e : DBExec σ) (s : σ) (o : Object)
    (t : EventType) (h : t = EventType.add ∨ t = EventType.update) :
    meshsyncEventsAccumulator e s ⟨t, .obj o⟩ = persistStoreUpdate e s o :=
  accumulator_eq_persist e s t o h

/-- Witness for C8 at a concrete input. -/
theorem c8_snapshot_live_equivalence_witness :
    (EventType.update = EventType.add ∨ EventType.update = EventType.update) ∧
    meshsyncEventsAccumulator meshDBExec ([sampleObject] : MeshDB) ⟨.update, .obj sampleObject⟩ =
      persistStoreUpdate meshDBExec ([sampleObject] : MeshDB) sampleObject :=
  ⟨Or.inr rfl,
   c8_snapshot_live_equivalence meshDBExec [sampleObject] sampleObject EventType.update (Or.inr rfl)⟩

/-- C3: Run performs the cold-start reset — dropping and, when the drop
succeeds, recreating the five tables — before anything else; when the reset
fails Run returns that error, starts neither subscriber loop and publishes
nothing, and when it succeeds the trace is exactly the reset operations
followed by both loop starts and then the full-sync publish, with the
publish outcome as Run's result. -/
theorem c3_run_cold_start (e : DBExec σ) (pubErr : Option Err) (s : σ) :
    (∀ er, (removeStaleObjects e s).error = some er →
      Run e pubErr s =
        ⟨(removeStaleObjects e s).state, (removeStaleObjects e s).ops.map .dbOp, some er⟩ ∧
      RunAction.startStoreUpdatesLoop ∉ (Run e pubErr s).acts ∧
      RunAction.startEventsLoop ∉ (Run e pubErr s).acts ∧
      (∀ sub req, RunAction.publish sub req ∉ (Run e pubErr s).acts)) ∧
    ((removeStaleObjects e s).error = none →
      Run e pubErr s =
        ⟨(removeStaleObjects e s).state,
         (removeStaleObjects e s).ops.map .dbOp ++
           [.startStoreUpdatesLoop, .startEventsLoop,
            .publish meshsyncRequestSubject requestMeshsyncStoreMessage],
         pubErr⟩) ∧
    DBOp.dropTable fiveTables ∈ (removeStaleObjects e s).ops ∧
    ((removeStaleObjects e s).error = none →
      (removeStaleObjects e s).ops =
        [.lock, .dropTable fiveTables, .createTable fiveTables, .unlock]) := by
  refine ⟨?_, ?_, ?_, ?_⟩
  · intro er her
    have hrun : Run e pubErr s =
        ⟨(removeStaleObjects e s).state, (removeStaleObjects e s).ops.map .dbOp, some er⟩ := by
      simp [Run, her]
    refine ⟨hrun, ?_, ?_, ?_⟩
    · rw [hrun]; simp
    · rw [hrun]; simp
    · intro sub req; rw [hrun]; simp
  · intro hnone
    simp [Run, hnone, requestMeshsyncStore]
  · rcases h1 : (e.dropTable s fiveTables).2 with _ | er
    · rcases hd : e.dropTable s fiveTables with ⟨s1, e1⟩
      rw [hd] at h1; subst h1
      rcases hc : e.createTable s1 fiveTables with ⟨s2, e2⟩
      cases e2 <;> simp [removeStaleObjects, hd, hc]
    · rcases hd : e.dropTable s fiveTables with ⟨s1, e1⟩
      rw [hd] at h1; subst h1
      simp [removeStaleObjects, hd]
  · intro hnone
    rcases hd : e.dropTable s fiveTables with ⟨s1, e1⟩
    rcases e1 with _ | er
    · rcases hc : e.createTable s1 fiveTables with ⟨s2, e2⟩
      rcases e2 with _ | er2
      · simp [removeStaleObjects, hd, hc]
      · exfalso
        rw [show removeStaleObjects e s =
            ⟨s2, [.lock, .dropTable fiveTables, .createTable fiveTables, .unlock], some er2⟩ by
          simp [removeStaleObjects, hd, hc]] at hnone
        simp at hnone
    · exfalso
      rw [show removeStaleObjects e s =
          ⟨s1, [.lock, .dropTable fiveTables, .unlock], some er⟩ by
        simp [removeStaleObjects, hd]] at hnone
      simp at hnone

/-- Witness for C3 at a concrete input whose reset succeeds: the full trace
is the reset followed by both loop starts and the publish, and the failing
publish outcome is returned. -/
theorem c3_run_cold_start_witness :
    (removeStaleObjects meshDBExec ([sampleObject] : MeshDB)).error = none ∧
    Run meshDBExec (some "publish failed") ([sampleObject] : MeshDB) =
      ⟨(removeStaleObjects meshDBExec ([sampleObject] : MeshDB)).state,
       (removeStaleObjects meshDBExec ([sampleObject] : MeshDB)).ops.map .dbOp ++
         [.startStoreUpdatesLoop, .startEventsLoop,
          .publish meshsyncRequestSubject requestMeshsyncStoreMessage],
       some "publish failed"⟩ :=
  ⟨rfl, (c3_run_cold_start meshDBExec (some "publish failed") [sampleObject]).2.1 rfl⟩

/-- C9 (as amended is not needed — stated as the claim): the full-sync
request published by Run carries entity "informer-store" and a reply subject
equal to the subject the store-updates loop subscribes to, and on a
successful reset the publish is the last action, after both loop starts. -/
theorem c9_request_reply_subject (e : DBExec σ) (pubErr : Option Err) (s : σ) :
    requestMeshsyncStoreMessage.entity = "informer-store" ∧
    requestMeshsyncStoreMessage.reply = storeUpdatesSubscribeSubject ∧
    storeUpdatesSubscribeSubject = MeshsyncStoreUpdatesSubject ∧
    (∀ sub req, RunAction.publish sub req ∈ (Run e pubErr s).acts →
      sub = meshsyncRequestSubject ∧ req = requestMeshsyncStoreMessage) ∧
    ((removeStaleObjects e s).error = none →
      ∃ pre, (Run e pubErr s).acts =
          pre ++ [.publish meshsyncRequestSubject requestMeshsyncStoreMessage] ∧
        RunAction.startStoreUpdatesLoop ∈ pre ∧ RunAction.startEventsLoop ∈ pre) := by
  refine ⟨rfl, rfl, rfl, ?_, ?_⟩
  · intro sub req hmem
    rcases h : (removeStaleObjects e s).error with _ | er
    · have hrun : (Run e pubErr s).acts =
          (removeStaleObjects e s).ops.map .dbOp ++
            [RunAction.startStoreUpdatesLoop, RunAction.startEventsLoop] ++
            [RunAction.publish meshsyncRequestSubject requestMeshsyncStoreMessage] := by
        simp [Run, h, requestMeshsyncStore]
      rw [hrun] at hmem
      simp at hmem
      exact ⟨hmem.1, hmem.2⟩
    · have hrun : (Run e pubErr s).acts = (removeStaleObjects e s).ops.map .dbOp := by
        simp [Run, h]
      rw [hrun] at hmem
      simp at hmem
  · intro hnone
    refine ⟨(removeStaleObjects e s).ops.map .dbOp ++
      [.startStoreUpdatesLoop, .startEventsLoop], ?_, by simp, by simp⟩
    simp [Run, hnone, requestMeshsyncStore]

/-- Witness for C9 at a concrete input. -/
theorem c9_request_reply_subject_witness :
    (removeStaleObjects meshDBExec ([] : MeshDB)).error = none ∧
    (∃ pre, (Run meshDBExec none ([] : MeshDB)).acts =
        pre ++ [.publish meshsyncRequestSubject requestMeshsyncStoreMessage] ∧
      RunAction.startStoreUpdatesLoop ∈ pre ∧ RunAction.startEventsLoop ∈ pre) :=
  ⟨rfl, (c9_request_reply_subject meshDBExec none ([] : MeshDB)).2.2.2.2 rfl⟩

/-- C10's failing input evaluated in the model: when the release-tag lookup
yields an empty version list (here together with a lookup error),
checkLatestVersion indexes the last element before checking the error and
panics — the out-of-range outcome none. -/
theorem c10_empty_versions_out_of_range :
    checkLatestVersion "edge-latest" [] (some "network failure") = none := rfl

/-- C7 counterexample: an Error-tagged event whose payload is a
ResourceObject rather than an error value panics the live-event loop through
the unchecked assertion, and a non-error store message whose payload is a
single object rather than a slice panics the store-updates loop. -/
theorem c7_counterexample :
    subscribeToMeshsyncEventsStep meshDBExec ([] : MeshDB)
        ⟨.errorEvent, .obj sampleObject⟩ = .panicked ∧
    subsribeToStoreUpdatesStep meshDBExec ([] : MeshDB)
        ⟨.add, .obj sampleObject⟩ = .panicked :=
  ⟨rfl, rfl⟩

/-- C7 as amended: for every message whose payload shape matches its tag —
Error-tagged events carry an error value, non-error store messages carry a
slice — both loops log and skip per-item failures (decode failures, write
failures, error events) and continue; neither loop-step panics on such
messages. -/
theorem c7_amended_no_panic_on_matching_shapes (e : DBExec σ) (s : σ) :
    (∀ m : Message, (m.eventType = .errorEvent → ∃ er, m.object = .errVal er) →
      subscribeToMeshsyncEventsStep e s m ≠ .panicked) ∧
    (∀ m : Message, (m.eventType = .errorEvent → ∃ er, m.object = .errVal er) →
      (m.eventType ≠ .errorEvent → ∃ xs, m.object = .items xs) →
      subsribeToStoreUpdatesStep e s m ≠ .panicked) := by
  constructor
  · intro m hshape
    unfold subscribeToMeshsyncEventsStep
    by_cases ht : m.eventType = .errorEvent
    · rcases hshape ht with ⟨er, hobj⟩
      simp [ht, hobj]
    · simp [ht]
  · intro m hshape hlist
    unfold subsribeToStoreUpdatesStep
    by_cases ht : m.eventType = .errorEvent
    · rcases hshape ht with ⟨er, hobj⟩
      simp [ht, hobj]
    · rcases hlist ht with ⟨xs, hobj⟩
      simp [ht, hobj]

/-- Witness for the amended C7 at concrete inputs: a well-shaped error event
and a well-shaped snapshot message (containing one decodable and one
undecodable item) do not panic. -/
theorem c7_amended_no_panic_witness :
    subscribeToMeshsyncEventsStep meshDBExec ([] : MeshDB)
        ⟨.errorEvent, .errVal "boom"⟩ ≠ .panicked ∧
    subsribeToStoreUpdatesStep meshDBExec ([] : MeshDB)
        ⟨.update, .items [.obj sampleObject, .undecodable]⟩ ≠ .panicked :=
  ⟨(c7_amended_no_panic_on_matching_shapes meshDBExec []).1 _ (fun _ => ⟨"boom", rfl⟩),
   (c7_amended_no_panic_on_matching_shapes meshDBExec []).2 _
     (fun h => nomatch h) (fun _ => ⟨[.obj sampleObject, .undecodable], rfl⟩)⟩

/-! ## Lemmas about the concrete store -/

/-- The uniqueness probe of dbCreate agrees with the row count. -/
lemma any_key_iff (s : MeshDB) (k : ObjectKey) :
    (s.any fun r => decide (objKey r = k)) = true ↔ 0 < rowsForKey s k := by
  simp [rowsForKey, List.any_eq_true]

/-- A full update rewrites the matching row in place and so preserves the
row count of every key. -/
lemma rowsForKey_map_update (s : MeshDB) (o : Object) (k : ObjectKey) :
    rowsForKey (s.map fun r => if objKey r = objKey o then o else r) k =
      rowsForKey s k := by
  unfold rowsForKey
  rw [List.countP_map]
  apply List.countP_congr
  intro r _
  by_cases h : objKey r = objKey o
  · simp [h]
  · simp [h]

/-- Appending one row adds its key once. -/
lemma rowsForKey_append_single (s : MeshDB) (o : Object) (k : ObjectKey) :
    rowsForKey (s ++ [o]) k = rowsForKey s k + if objKey o = k then 1 else 0 := by
  unfold rowsForKey
  rw [List.countP_append, List.countP_singleton]
  simp

/-- An Add event for a key that is absent from the store takes the plain
create path and appends the row. -/
lemma add_when_absent (db : MeshDB) (o : Object)
    (hz : rowsForKey db (objKey o) = 0) :
    meshsyncEventsAccumulator meshDBExec db ⟨.add, .obj o⟩ =
      ⟨db ++ [o], [.lock, .create o, .unlock], none⟩ := by
  have hany : (db.any fun r => decide (objKey r = objKey o)) = false := by
    rcases h : db.any fun r => decide (objKey r = objKey o)
    · rfl
    · exfalso
      have := (any_key_iff db (objKey o)).mp h
      omega
  have hc : meshDBExec.create db o = (db ++ [o], none) := by
    simp [meshDBExec, dbCreate, hany]
  rw [accumulator_eq_persist _ _ _ _ (Or.inl rfl)]
  rw [persist_create_ok meshDBExec db o (by rw [hc])]
  rw [hc]

/-- An Add event for a key already present in the store takes the
update-fallback path: the create fails and the full update rewrites the
row, succeeding. -/
lemma add_when_present (db : MeshDB) (o : Object)
    (hpos : 0 < rowsForKey db (objKey o)) :
    meshsyncEventsAccumulator meshDBExec db ⟨.add, .obj o⟩ =
      ⟨db.map (fun r => if objKey r = objKey o then o else r),
       [.lock, .create o, .updatesFullSave o, .unlock], none⟩ := by
  have hany : (db.any fun r => decide (objKey r = objKey o)) = true :=
    (any_key_iff db (objKey o)).mpr hpos
  have hc : meshDBExec.create db o = (db, some "UNIQUE constraint failed") := by
    simp [meshDBExec, dbCreate, hany]
  rw [accumulator_eq_persist _ _ _ _ (Or.inl rfl)]
  rw [persist_create_fails meshDBExec db o "UNIQUE constraint failed" (by rw [hc])]
  rw [hc]
  simp [meshDBExec, dbUpdatesFullSave]

/-- After one Add event the key has exactly one row and the store is still
well formed. -/
lemma add_first_rows (db : MeshDB) (o : Object) (hwf : DBWF db) :
    rowsForKey (meshsyncEventsAccumulator meshDBExec db ⟨.add, .obj o⟩).state (objKey o) = 1 ∧
    DBWF (meshsyncEventsAccumulator meshDBExec db ⟨.add, .obj o⟩).state := by
  rcases Nat.eq_zero_or_pos (rowsForKey db (objKey o)) with hz | hpos
  · rw [add_when_absent db o hz]
    constructor
    · simp [rowsForKey_append_single, hz]
    · intro k
      rw [rowsForKey_append_single]
      by_cases hk : objKey o = k
      · subst hk
        simp [hz]
      · simp [hk]
        exact hwf k
  · rw [add_when_present db o hpos]
    constructor
    · rw [rowsForKey_map_update]
      have := hwf (objKey o)
      omega
    · intro k
      rw [rowsForKey_map_update]
      exact hwf k

/-- C2: from any well-formed store, applying an Add event for a key twice in
sequence leaves exactly one persisted row for the key (and a well-formed
store); the second application takes the update-fallback branch — its create
fails, its trace is create followed by the full update, and it succeeds. -/
theorem c2_add_twice_idempotent (db : MeshDB) (o : Object) (hwf : DBWF db) :
    rowsForKey (meshsyncEventsAccumulator meshDBExec
        (meshsyncEventsAccumulator meshDBExec db ⟨.add, .obj o⟩).state
        ⟨.add, .obj o⟩).state (objKey o) = 1 ∧
    (meshsyncEventsAccumulator meshDBExec
        (meshsyncEventsAccumulator meshDBExec db ⟨.add, .obj o⟩).state
        ⟨.add, .obj o⟩).ops = [.lock, .create o, .updatesFullSave o, .unlock] ∧
    (meshsyncEventsAccumulator meshDBExec
        (meshsyncEventsAccumulator meshDBExec db ⟨.add, .obj o⟩).state
        ⟨.add, .obj o⟩).error = none ∧
    (meshDBExec.create
        (meshsyncEventsAccumulator meshDBExec db ⟨.add, .obj o⟩).state o).2.isSome ∧
    DBWF (meshsyncEventsAccumulator meshDBExec
        (meshsyncEventsAccumulator meshDBExec db ⟨.add, .obj o⟩).state
        ⟨.add, .obj o⟩).state := by
  obtain ⟨h1, hwf1⟩ := add_first_rows db o hwf
  set db1 := (meshsyncEventsAccumulator meshDBExec db ⟨.add, .obj o⟩).state with hdb1
  have hpos : 0 < rowsForKey db1 (objKey o) := by omega
  have hsecond := add_when_present db1 o hpos
  have hany : (db1.any fun r => decide (objKey r = objKey o)) = true :=
    (any_key_iff db1 (objKey o)).mpr hpos
  refine ⟨?_, ?_, ?_, ?_, ?_⟩
  · rw [hsecond]
    rw [show (AccResult.mk (db1.map fun r => if objKey r = objKey o then o else r)
      [.lock, .create o, .updatesFullSave o, .unlock] none).state =
        db1.map fun r => if objKey r = objKey o then o else r from rfl]
    rw [rowsForKey_map_update]
    exact h1
  · rw [hsecond]
  · rw [hsecond]
  · simp [meshDBExec, dbCreate, hany]
  · rw [hsecond]
    intro k
    rw [show (AccResult.mk (db1.map fun r => if objKey r = objKey o then o else r)
      [.lock, .create o, .updatesFullSave o, .unlock] none).state =
        db1.map fun r => if objKey r = objKey o then o else r from rfl]
    rw [rowsForKey_map_update]
    exact hwf1 k

/-- Witness for C2 at a concrete input: the empty store is well formed, and
two Add events for the sample object leave one row, the second taking the
update-fallback branch. -/
theorem c2_add_twice_idempotent_witness :
    DBWF ([] : MeshDB) ∧
    (rowsForKey (meshsyncEventsAccumulator meshDBExec
        (meshsyncEventsAccumulator meshDBExec ([] : MeshDB) ⟨.add, .obj sampleObject⟩).state
        ⟨.add, .obj sampleObject⟩).state (objKey sampleObject) = 1 ∧
    (meshsyncEventsAccumulator meshDBExec
        (meshsyncEventsAccumulator meshDBExec ([] : MeshDB) ⟨.add, .obj sampleObject⟩).state
        ⟨.add, .obj sampleObject⟩).ops =
      [.lock, .create sampleObject, .updatesFullSave sampleObject, .unlock] ∧
    (meshsyncEventsAccumulator meshDBExec
        (meshsyncEventsAccumulator meshDBExec ([] : MeshDB) ⟨.add, .obj sampleObject⟩).state
        ⟨.add, .obj sampleObject⟩).error = none ∧
    (meshDBExec.create
        (meshsyncEventsAccumulator meshDBExec ([] : MeshDB) ⟨.add, .obj sampleObject⟩).state
        sampleObject).2.isSome ∧
    DBWF (meshsyncEventsAccumulator meshDBExec
        (meshsyncEventsAccumulator meshDBExec ([] : MeshDB) ⟨.add, .obj sampleObject⟩).state
        ⟨.add, .obj sampleObject⟩).state) :=
  ⟨fun k => by simp [rowsForKey],
   c2_add_twice_idempotent [] sampleObject (fun k => by simp [rowsForKey])⟩

/-! ## The deploy pass -/

/-- C4: in one reconciliation pass, Deploy is invoked exactly for the
registered contexts whose cached status is NotDeployed — never for a context
cached as Deployed or with no cached status — every deploy failure is
logged, and one context's failure does not prevent the Deploy of any other
eligible context (the invocation list is characterized independently of the
deploy outcomes). -/
theorem c4_deploy_exactly_notDeployed (ctxCtrl : List (String × CtrlHandlersEntry))
    (statuses : List (String × MesheryControllerStatus))
    (hop : ∀ p ∈ ctxCtrl, (alookup p.2 MesheryController.mesheryOperator).isSome) :
    ∃ r, deployUndeployedLoop statuses ctxCtrl = some r ∧
      r.invoked = (ctxCtrl.filter (eligibleForDeploy statuses)).map Prod.fst ∧
      r.loggedErrors = (ctxCtrl.filter (eligibleForDeploy statuses)).filterMap deployErrOf ∧
      (∀ c, c ∈ r.invoked ↔
        ∃ entry, (c, entry) ∈ ctxCtrl ∧
          alookup statuses c = some MesheryControllerStatus.notDeployed) := by
  induction ctxCtrl with
  | nil =>
    exact ⟨⟨[], []⟩, rfl, by simp, by simp, by simp⟩
  | cons p rest ih =>
    obtain ⟨c, entry⟩ := p
    obtain ⟨r, hr, hinv, hlog, hiff⟩ := ih (fun q hq => hop q (List.mem_cons_of_mem _ hq))
    have hopc : (alookup entry MesheryController.mesheryOperator).isSome :=
      hop (c, entry) (List.mem_cons_self _ _)
    rcases hh : alookup entry MesheryController.mesheryOperator with _ | h
    · rw [hh] at hopc; simp at hopc
    · rcases hst : alookup statuses c with _ | st
      · refine ⟨r, ?_, ?_, ?_, ?_⟩
        · simpa [deployUndeployedLoop, hst] using hr
        · rw [hinv]; simp [eligibleForDeploy, hst]
        · rw [hlog]; simp [eligibleForDeploy, hst]
        · intro c'
          rw [hiff c']
          constructor
          · rintro ⟨e', he', hs⟩
            exact ⟨e', List.mem_cons_of_mem _ he', hs⟩
          · rintro ⟨e', he', hs⟩
            rcases List.mem_cons.mp he' with heq | hmem
            · injection heq with h1 h2
              subst h1
              rw [hst] at hs
              exact Option.noConfusion hs
            · exact ⟨e', hmem, hs⟩
      · by_cases hnd : st = MesheryControllerStatus.notDeployed
        · subst hnd
          refine ⟨⟨c :: r.invoked,
            match handleDeploy h with
            | some er => er :: r.loggedErrors
            | none => r.loggedErrors⟩, ?_, ?_, ?_, ?_⟩
          · simp [deployUndeployedLoop, hst, hh, hr]
          · simp [eligibleForDeploy, hst, hinv]
          · simp [eligibleForDeploy, hst]
            rw [List.filterMap_cons]
            have hde : deployErrOf (c, entry) = handleDeploy h := by
              simp [deployErrOf, hh]
            rw [hde, hlog]
            rcases handleDeploy h with _ | er <;> simp
          · intro c'
            simp only [DeployPassResult.invoked, List.mem_cons]
            constructor
            · rintro (rfl | hmem)
              · exact ⟨entry, Or.inl rfl, hst⟩
              · obtain ⟨e', he', hs⟩ := (hiff c').mp hmem
                exact ⟨e', Or.inr he', hs⟩
            · rintro ⟨e', he', hs⟩
              rcases he' with heq | hmem
              · injection heq with h1 h2
                subst h1
                exact Or.inl rfl
              · exact Or.inr ((hiff c').mpr ⟨e', hmem, hs⟩)
        · refine ⟨r, ?_, ?_, ?_, ?_⟩
          · simpa [deployUndeployedLoop, hst, hnd] using hr
          · rw [hinv]
            have : eligibleForDeploy statuses (c, entry) = false := by
              simp [eligibleForDeploy, hst, hnd]
            simp [this]
          · rw [hlog]
            have : eligibleForDeploy statuses (c, entry) = false := by
              simp [eligibleForDeploy, hst, hnd]
            simp [this]
          · intro c'
            rw [hiff c']
            constructor
            · rintro ⟨e', he', hs⟩
              exact ⟨e', List.mem_cons_of_mem _ he', hs⟩
            · rintro ⟨e', he', hs⟩
              rcases List.mem_cons.mp he' with heq | hmem
              · injection heq with h1 h2
                subst h1
                rw [hst] at hs
                injection hs with h3
                exact absurd h3 hnd
              · exact ⟨e', hmem, hs⟩

/-- Witness for C4 at a concrete input: contexts c1 and c3 are cached
NotDeployed and both receive Deploy — c1's failure is logged and does not
stop c3 — while deployed c2 and status-less c4 are skipped. -/
theorem c4_deploy_exactly_notDeployed_witness :
    (∀ p ∈ sampleCtrlMap, (alookup p.2 MesheryController.mesheryOperator).isSome) ∧
    (∃ r, deployUndeployedLoop sampleStatuses sampleCtrlMap = some r ∧
      r.invoked = (sampleCtrlMap.filter (eligibleForDeploy sampleStatuses)).map Prod.fst ∧
      r.loggedErrors =
        (sampleCtrlMap.filter (eligibleForDeploy sampleStatuses)).filterMap deployErrOf ∧
      (∀ c, c ∈ r.invoked ↔
        ∃ entry, (c, entry) ∈ sampleCtrlMap ∧
          alookup sampleStatuses c = some MesheryControllerStatus.notDeployed)) :=
  ⟨by decide, c4_deploy_exactly_notDeployed sampleCtrlMap sampleStatuses (by decide)⟩

/-! ## Association-list lemmas and the controller-map pass -/

/-- First-match lookup across an append. -/
lemma alookup_append {α β : Type} [DecidableEq α] (l1 l2 : List (α × β)) (a : α) :
    alookup (l1 ++ l2) a =
      match alookup l1 a with
      | some v => some v
      | none => alookup l2 a := by
  induction l1 with
  | nil => simp [alookup]
  | cons p t ih =>
    obtain ⟨k, v⟩ := p
    by_cases h : k = a <;> simp [alookup, h, ih]

/-- Appending entries never changes the binding of a key that is already
bound. -/
lemma alookup_append_of_isSome {α β : Type} [DecidableEq α]
    (l1 l2 : List (α × β)) (a : α) (h : (alookup l1 a).isSome) :
    alookup (l1 ++ l2) a = alookup l1 a := by
  rw [alookup_append]
  rcases hh : alookup l1 a with _ | v
  · rw [hh] at h; simp at h
  · rfl

/-- A singleton with a different key binds nothing for this key. -/
lemma alookup_single_ne {α β : Type} [DecidableEq α] (k a : α) (v : β)
    (h : ¬ k = a) : alookup [(k, v)] a = none := by
  simp [alookup, h]

/-- Unfolding one step of the controller-map pass. -/
lemma updateCtx_cons (newClient : KubeConfig → Except Err Client)
    (m : List (String × CtrlHandlersEntry)) (ctx : K8sContext) (rest : List K8sContext) :
    UpdateCtxControllerHandlers newClient m (ctx :: rest) =
      UpdateCtxControllerHandlers newClient
        (if (alookup m ctx.id).isSome then m
         else match newClient (GenerateKubeConfig ctx).1 with
           | .error _ => m
           | .ok client => m ++ [(ctx.id,
               [(.mesheryBroker, ⟨client⟩), (.mesheryOperator, ⟨client⟩),
                (.meshsync, ⟨client⟩)])]) rest := rfl

/-- The controller-map pass never disturbs a key that is already bound. -/
lemma updateCtx_preserves (newClient : KubeConfig → Except Err Client) :
    ∀ (ctxs : List K8sContext) (m : List (String × CtrlHandlersEntry)) (id : String),
    (alookup m id).isSome →
    alookup (UpdateCtxControllerHandlers newClient m ctxs) id = alookup m id := by
  intro ctxs
  induction ctxs with
  | nil => intro m id _; rfl
  | cons ctx rest ih =>
    intro m id hsome
    rw [updateCtx_cons]
    by_cases hc : (alookup m ctx.id).isSome
    · rw [if_pos hc]
      exact ih m id hsome
    · rw [if_neg hc]
      rcases hn : newClient (GenerateKubeConfig ctx).1 with er | cl
      · exact ih m id hsome
      · have hpres : alookup (m ++ [(ctx.id, entryFor cl)]) id = alookup m id :=
          alookup_append_of_isSome m _ id hsome
        have hsome2 : (alookup (m ++ [(ctx.id, entryFor cl)]) id).isSome := by
          rw [hpres]; exact hsome
        have h3 := ih (m ++ [(ctx.id, entryFor cl)]) id hsome2
        rw [hpres] at h3
        simpa [entryFor] using h3

/-- The controller-map pass leaves keys outside the supplied contexts
untouched. -/
lemma updateCtx_untouched (newClient : KubeConfig → Except Err Client) :
    ∀ (ctxs : List K8sContext) (m : List (String × CtrlHandlersEntry)) (id : String),
    id ∉ ctxs.map K8sContext.id →
    alookup (UpdateCtxControllerHandlers newClient m ctxs) id = alookup m id := by
  intro ctxs
  induction ctxs with
  | nil => intro m id _; rfl
  | cons ctx rest ih =>
    intro m id hnot
    have hne : ¬ ctx.id = id := by
      intro h
      exact hnot (by simp [h])
    have hrest : id ∉ rest.map K8sContext.id := by
      intro h
      exact hnot (by simp [h])
    rw [updateCtx_cons]
    by_cases hc : (alookup m ctx.id).isSome
    · rw [if_pos hc]
      exact ih m id hrest
    · rw [if_neg hc]
      rcases hn : newClient (GenerateKubeConfig ctx).1 with er | cl
      · exact ih m id hrest
      · have hpres : alookup (m ++ [(ctx.id, entryFor cl)]) id = alookup m id := by
          rw [alookup_append]
          rcases hm : alookup m id with _ | v
          · exact alookup_single_ne ctx.id id _ hne
          · rfl
        have h3 := ih (m ++ [(ctx.id, entryFor cl)]) id hrest
        rw [hpres] at h3
        simpa [entryFor] using h3

/-- Each fresh supplied context is bound exactly when its client
construction succeeds, with the literal three-kind entry. -/
lemma updateCtx_added (newClient : KubeConfig → Except Err Client) :
    ∀ (ctxs : List K8sContext) (m : List (String × CtrlHandlersEntry)),
    (ctxs.map K8sContext.id).Nodup →
    ∀ ctx ∈ ctxs, alookup m ctx.id = none →
    (∀ cl, newClient (GenerateKubeConfig ctx).1 = .ok cl →
      alookup (UpdateCtxControllerHandlers newClient m ctxs) ctx.id =
        some [(.mesheryBroker, ⟨cl⟩), (.mesheryOperator, ⟨cl⟩), (.meshsync, ⟨cl⟩)]) ∧
    (∀ er, newClient (GenerateKubeConfig ctx).1 = .error er →
      alookup (UpdateCtxControllerHandlers newClient m ctxs) ctx.id = none) := by
  intro ctxs
  induction ctxs with
  | nil => intro m _ ctx h; simp at h
  | cons hd rest ih =>
    intro m hnd ctx hmem hm
    have hndtl : (rest.map K8sContext.id).Nodup := (List.nodup_cons.mp hnd).2
    have hhd : hd.id ∉ rest.map K8sContext.id := (List.nodup_cons.mp hnd).1
    rcases List.mem_cons.mp hmem with rfl | hmemr
    · have hc : ¬ (alookup m ctx.id).isSome = true := by simp [hm]
      constructor
      · intro cl hok
        rw [updateCtx_cons, if_neg hc, hok]
        have hsingle : alookup (m ++ [(ctx.id, entryFor cl)]) ctx.id = some (entryFor cl) := by
          rw [alookup_append, hm]
          simp [alookup]
        have hpres := updateCtx_preserves newClient rest
          (m ++ [(ctx.id, entryFor cl)]) ctx.id (by rw [hsingle]; rfl)
        rw [hsingle] at hpres
        simpa [entryFor] using hpres
      · intro er herr
        rw [updateCtx_cons, if_neg hc, herr]
        rw [updateCtx_untouched newClient rest m ctx.id hhd]
        exact hm
    · have hne : ¬ hd.id = ctx.id := by
        intro h
        exact hhd (h ▸ (List.mem_map.mpr ⟨ctx, hmemr, rfl⟩))
      rw [updateCtx_cons]
      by_cases hc : (alookup m hd.id).isSome
      · rw [if_pos hc]
        exact ih m hndtl ctx hmemr hm
      · rw [if_neg hc]
        rcases hn : newClient (GenerateKubeConfig hd).1 with er | cl
        · exact ih m hndtl ctx hmemr hm
        · have hm2 : alookup (m ++ [(hd.id, entryFor cl)]) ctx.id = none := by
            rw [alookup_append, hm]
            exact alookup_single_ne hd.id ctx.id _ hne
          have h3 := ih (m ++ [(hd.id, entryFor cl)]) hndtl ctx hmemr hm2
          simpa [entryFor] using h3

/-- C5: after the controller-map pass, contexts already bound keep their
binding; a supplied context that was absent is bound exactly when building
its cluster client succeeds — in which case its entry is the literal
three-kind map (Broker, Operator, Meshsync) bound to that client — and a
context whose client construction fails stays absent, independently of the
other supplied contexts. -/
theorem c5_controller_map_update (newClient : KubeConfig → Except Err Client)
    (m : List (String × CtrlHandlersEntry)) (ctxs : List K8sContext)
    (hnd : (ctxs.map K8sContext.id).Nodup) :
    (∀ id, (alookup m id).isSome →
      alookup (UpdateCtxControllerHandlers newClient m ctxs) id = alookup m id) ∧
    (∀ ctx ∈ ctxs, alookup m ctx.id = none →
      (∀ cl, newClient (GenerateKubeConfig ctx).1 = .ok cl →
        alookup (UpdateCtxControllerHandlers newClient m ctxs) ctx.id =
          some [(.mesheryBroker, ⟨cl⟩), (.mesheryOperator, ⟨cl⟩), (.meshsync, ⟨cl⟩)]) ∧
      (∀ er, newClient (GenerateKubeConfig ctx).1 = .error er →
        alookup (UpdateCtxControllerHandlers newClient m ctxs) ctx.id = none)) :=
  ⟨fun id h => updateCtx_preserves newClient ctxs m id h,
   fun ctx hmem hm => updateCtx_added newClient ctxs m hnd ctx hmem hm⟩

/-- Witness for C5 at a concrete input: of two fresh contexts, the one with
an invalid config stays absent and the valid one is bound to the
three-handle entry for its new client. -/
theorem c5_controller_map_update_witness :
    (sampleCtxs.map K8sContext.id).Nodup ∧
    ((∀ id, (alookup ([("old", entryFor sampleClientOk)]) id).isSome →
      alookup (UpdateCtxControllerHandlers sampleNewClient
          [("old", entryFor sampleClientOk)] sampleCtxs) id =
        alookup ([("old", entryFor sampleClientOk)]) id) ∧
    (∀ ctx ∈ sampleCtxs, alookup ([("old", entryFor sampleClientOk)]) ctx.id = none →
      (∀ cl, sampleNewClient (GenerateKubeConfig ctx).1 = .ok cl →
        alookup (UpdateCtxControllerHandlers sampleNewClient
            [("old", entryFor sampleClientOk)] sampleCtxs) ctx.id =
          some [(.mesheryBroker, ⟨cl⟩), (.mesheryOperator, ⟨cl⟩), (.meshsync, ⟨cl⟩)]) ∧
      (∀ er, sampleNewClient (GenerateKubeConfig ctx).1 = .error er →
        alookup (UpdateCtxControllerHandlers sampleNewClient
            [("old", entryFor sampleClientOk)] sampleCtxs) ctx.id = none))) :=
  ⟨by decide,
   c5_controller_map_update sampleNewClient [("old", entryFor sampleClientOk)]
     sampleCtxs (by decide)⟩

/-! ## The accumulator-attachment pass -/

/-- A key contained in an association list has a binding. -/
lemma alookup_isSome_of_mem_keys {α β : Type} [DecidableEq α]
    (m : List (α × β)) (k : α) (h : k ∈ m.map Prod.fst) :
    (alookup m k).isSome := by
  induction m with
  | nil => simp at h
  | cons p t ih =>
    obtain ⟨a, b⟩ := p
    simp only [List.map_cons, List.mem_cons] at h
    by_cases hak : a = k
    · simp [alookup, hak]
    · rcases h with rfl | hm
      · exact absurd rfl hak
      · simp only [alookup, if_neg hak]
        exact ih hm

/-- Attachment step: a context that already has a handler is skipped. -/
lemma uml_skip (natsNew : String → Except Err NatsConn) (e : DBExec σ)
    (ctxId : String) (handlers : CtrlHandlersEntry)
    (rest : List (String × CtrlHandlersEntry))
    (hmap : List (String × MeshsyncDataHandlerM)) (s : σ)
    (h1 : (alookup hmap ctxId).isSome) :
    updateMeshsynLoop natsNew e ((ctxId, handlers) :: rest) hmap s =
      updateMeshsynLoop natsNew e rest hmap s := by
  simp only [updateMeshsynLoop]
  rw [if_pos h1]

/-- Attachment step: an empty public endpoint skips the context. -/
lemma uml_emptyep (natsNew : String → Except Err NatsConn) (e : DBExec σ)
    (ctxId : String) (handlers : CtrlHandlersEntry)
    (rest : List (String × CtrlHandlersEntry))
    (hmap : List (String × MeshsyncDataHandlerM)) (s : σ)
    (bh : IMesheryControllerHandle)
    (h1 : ¬ (alookup hmap ctxId).isSome = true)
    (hb : alookup handlers MesheryController.mesheryBroker = some bh)
    (h2 : (handleGetPublicEndpoint bh).1 = "") :
    updateMeshsynLoop natsNew e ((ctxId, handlers) :: rest) hmap s =
      updateMeshsynLoop natsNew e rest hmap s := by
  simp only [updateMeshsynLoop]
  rw [if_neg h1, hb]
  simp only []
  rw [if_pos h2]

/-- Attachment step: a failed broker connection skips the context. -/
lemma uml_natsfail (natsNew : String → Except Err NatsConn) (e : DBExec σ)
    (ctxId : String) (handlers : CtrlHandlersEntry)
    (rest : List (String × CtrlHandlersEntry))
    (hmap : List (String × MeshsyncDataHandlerM)) (s : σ)
    (bh : IMesheryControllerHandle) (er : Err)
    (h1 : ¬ (alookup hmap ctxId).isSome = true)
    (hb : alookup handlers MesheryController.mesheryBroker = some bh)
    (h2 : ¬ (handleGetPublicEndpoint bh).1 = "")
    (hn : natsNew (handleGetPublicEndpoint bh).1 = .error er) :
    updateMeshsynLoop natsNew e ((ctxId, handlers) :: rest) hmap s =
      updateMeshsynLoop natsNew e rest hmap s := by
  simp only [updateMeshsynLoop]
  rw [if_neg h1, hb]
  simp only []
  rw [if_neg h2, hn]

/-- Attachment step: Run fails, so the handler is recorded as created but
the context is left unattached and the pass continues with Run's storage
state. -/
lemma uml_runfail (natsNew : String → Except Err NatsConn) (e : DBExec σ)
    (ctxId : String) (handlers : CtrlHandlersEntry)
    (rest : List (String × CtrlHandlersEntry))
    (hmap : List (String × MeshsyncDataHandlerM)) (s : σ)
    (bh : IMesheryControllerHandle) (conn : NatsConn) (er : Err)
    (h1 : ¬ (alookup hmap ctxId).isSome = true)
    (hb : alookup handlers MesheryController.mesheryBroker = some bh)
    (h2 : ¬ (handleGetPublicEndpoint bh).1 = "")
    (hn : natsNew (handleGetPublicEndpoint bh).1 = .ok conn)
    (hre : (Run e conn.pubErr s).error = some er) :
    updateMeshsynLoop natsNew e ((ctxId, handlers) :: rest) hmap s =
      match updateMeshsynLoop natsNew e rest hmap (Run e conn.pubErr s).state with
      | none => none
      | some r => some ⟨r.handlerMap, r.dbState,
          ⟨ctxId, decide (RunAction.startEventsLoop ∈ (Run e conn.pubErr s).acts),
           (Run e conn.pubErr s).error⟩ :: r.created⟩ := by
  simp only [updateMeshsynLoop]
  rw [if_neg h1, hb]
  simp only []
  rw [if_neg h2, hn]
  simp only []
  rw [hre]

/-- Attachment step: Run succeeds, so the handler is recorded as created and
is stored in the handler map. -/
lemma uml_runok (natsNew : String → Except Err NatsConn) (e : DBExec σ)
    (ctxId : String) (handlers : CtrlHandlersEntry)
    (rest : List (String × CtrlHandlersEntry))
    (hmap : List (String × MeshsyncDataHandlerM)) (s : σ)
    (bh : IMesheryControllerHandle) (conn : NatsConn)
    (h1 : ¬ (alookup hmap ctxId).isSome = true)
    (hb : alookup handlers MesheryController.mesheryBroker = some bh)
    (h2 : ¬ (handleGetPublicEndpoint bh).1 = "")
    (hn : natsNew (handleGetPublicEndpoint bh).1 = .ok conn)
    (hre : (Run e conn.pubErr s).error = none) :
    updateMeshsynLoop natsNew e ((ctxId, handlers) :: rest) hmap s =
      match updateMeshsynLoop natsNew e rest (hmap ++ [(ctxId, ⟨conn⟩)])
          (Run e conn.pubErr s).state with
      | none => none
      | some r => some ⟨r.handlerMap, r.dbState,
          ⟨ctxId, decide (RunAction.startEventsLoop ∈ (Run e conn.pubErr s).acts),
           (Run e conn.pubErr s).error⟩ :: r.created⟩ := by
  simp only [updateMeshsynLoop]
  rw [if_neg h1, hb]
  simp only []
  rw [if_neg h2, hn]
  simp only []
  rw [hre]

/-- Attachment step: a missing broker handle is a nil-interface method call
and panics the pass. -/
lemma uml_nobroker (natsNew : String → Except Err NatsConn) (e : DBExec σ)
    (ctxId : String) (handlers : CtrlHandlersEntry)
    (rest : List (String × CtrlHandlersEntry))
    (hmap : List (String × MeshsyncDataHandlerM)) (s : σ)
    (h1 : ¬ (alookup hmap ctxId).isSome = true)
    (hb : alookup handlers MesheryController.mesheryBroker = none) :
    updateMeshsynLoop natsNew e ((ctxId, handlers) :: rest) hmap s = none := by
  simp only [updateMeshsynLoop]
  rw [if_neg h1, hb]

/-- An append binds nothing new for a key unbound in the result. -/
lemma alookup_append_eq_none {α β : Type} [DecidableEq α]
    (l1 l2 : List (α × β)) (a : α) (h : alookup (l1 ++ l2) a = none) :
    alookup l1 a = none := by
  rw [alookup_append] at h
  rcases hh : alookup l1 a with _ | v
  · rfl
  · rw [hh] at h
    exact Option.noConfusion h

/-- With every broker handle present, the attachment pass cannot panic. -/
lemma uml_total (natsNew : String → Except Err NatsConn) (e : DBExec σ) :
    ∀ (ctxCtrl : List (String × CtrlHandlersEntry)),
    (∀ p ∈ ctxCtrl, (alookup p.2 MesheryController.mesheryBroker).isSome) →
    ∀ hmap s, ∃ res, updateMeshsynLoop natsNew e ctxCtrl hmap s = some res := by
  intro ctxCtrl
  induction ctxCtrl with
  | nil => intro _ hmap s; exact ⟨⟨hmap, s, []⟩, rfl⟩
  | cons p rest ih =>
    obtain ⟨ctxId, handlers⟩ := p
    intro hb hmap s
    have hbrest : ∀ q ∈ rest, (alookup q.2 MesheryController.mesheryBroker).isSome :=
      fun q hq => hb q (List.mem_cons_of_mem _ hq)
    have hbh := hb (ctxId, handlers) (List.mem_cons_self _ _)
    rcases hbr : alookup handlers MesheryController.mesheryBroker with _ | bh
    · rw [hbr] at hbh; simp at hbh
    · by_cases h1 : (alookup hmap ctxId).isSome
      · rw [uml_skip natsNew e ctxId handlers rest hmap s h1]
        exact ih hbrest hmap s
      · by_cases h2 : (handleGetPublicEndpoint bh).1 = ""
        · rw [uml_emptyep natsNew e ctxId handlers rest hmap s bh h1 hbr h2]
          exact ih hbrest hmap s
        · rcases hn : natsNew (handleGetPublicEndpoint bh).1 with er | conn
          · rw [uml_natsfail natsNew e ctxId handlers rest hmap s bh er h1 hbr h2 hn]
            exact ih hbrest hmap s
          · rcases hre : (Run e conn.pubErr s).error with _ | er
            · rw [uml_runok natsNew e ctxId handlers rest hmap s bh conn h1 hbr h2 hn hre]
              obtain ⟨r, hr⟩ := ih hbrest (hmap ++ [(ctxId, ⟨conn⟩)]) (Run e conn.pubErr s).state
              rw [hr]
              exact ⟨_, rfl⟩
            · rw [uml_runfail natsNew e ctxId handlers rest hmap s bh conn er h1 hbr h2 hn hre]
              obtain ⟨r, hr⟩ := ih hbrest hmap (Run e conn.pubErr s).state
              rw [hr]
              exact ⟨_, rfl⟩

/-- The attachment pass never disturbs a context that already has a
handler. -/
lemma uml_pres (natsNew : String → Except Err NatsConn) (e : DBExec σ) :
    ∀ (ctxCtrl : List (String × CtrlHandlersEntry))
      (hmap : List (String × MeshsyncDataHandlerM)) (s : σ) (res : AttachResult σ),
    updateMeshsynLoop natsNew e ctxCtrl hmap s = some res →
    ∀ id, (alookup hmap id).isSome → alookup res.handlerMap id = alookup hmap id := by
  intro ctxCtrl
  induction ctxCtrl with
  | nil =>
    intro hmap s res h id hid
    injection h with h
    subst h
    rfl
  | cons p rest ih =>
    obtain ⟨ctxId, handlers⟩ := p
    intro hmap s res h id hid
    by_cases h1 : (alookup hmap ctxId).isSome
    · rw [uml_skip natsNew e ctxId handlers rest hmap s h1] at h
      exact ih hmap s res h id hid
    · rcases hbr : alookup handlers MesheryController.mesheryBroker with _ | bh
      · rw [uml_nobroker natsNew e ctxId handlers rest hmap s h1 hbr] at h
        exact Option.noConfusion h
      · by_cases h2 : (handleGetPublicEndpoint bh).1 = ""
        · rw [uml_emptyep natsNew e ctxId handlers rest hmap s bh h1 hbr h2] at h
          exact ih hmap s res h id hid
        · rcases hn : natsNew (handleGetPublicEndpoint bh).1 with er | conn
          · rw [uml_natsfail natsNew e ctxId handlers rest hmap s bh er h1 hbr h2 hn] at h
            exact ih hmap s res h id hid
          · rcases hre : (Run e conn.pubErr s).error with _ | er
            · rw [uml_runok natsNew e ctxId handlers rest hmap s bh conn h1 hbr h2 hn hre] at h
              rcases hrec : updateMeshsynLoop natsNew e rest (hmap ++ [(ctxId, ⟨conn⟩)])
                  (Run e conn.pubErr s).state with _ | r
              · rw [hrec] at h
                exact Option.noConfusion h
              · rw [hrec] at h
                injection h with h
                subst h
                have hpres : alookup (hmap ++ [(ctxId, ⟨conn⟩)]) id = alookup hmap id :=
                  alookup_append_of_isSome hmap _ id hid
                have h3 := ih (hmap ++ [(ctxId, ⟨conn⟩)]) (Run e conn.pubErr s).state r hrec id
                  (by rw [hpres]; exact hid)
                rw [hpres] at h3
                exact h3
            · rw [uml_runfail natsNew e ctxId handlers rest hmap s bh conn er h1 hbr h2 hn hre] at h
              rcases hrec : updateMeshsynLoop natsNew e rest hmap
                  (Run e conn.pubErr s).state with _ | r
              · rw [hrec] at h
                exact Option.noConfusion h
              · rw [hrec] at h
                injection h with h
                subst h
                exact ih hmap (Run e conn.pubErr s).state r hrec id hid

/-- Every handler the attachment pass constructs belongs to a registered
context that had no handler before the pass. -/
lemma uml_created (natsNew : String → Except Err NatsConn) (e : DBExec σ) :
    ∀ (ctxCtrl : List (String × CtrlHandlersEntry))
      (hmap : List (String × MeshsyncDataHandlerM)) (s : σ) (res : AttachResult σ),
    updateMeshsynLoop natsNew e ctxCtrl hmap s = some res →
    ∀ crec ∈ res.created,
      alookup hmap crec.ctxId = none ∧ crec.ctxId ∈ ctxCtrl.map Prod.fst := by
  intro ctxCtrl
  induction ctxCtrl with
  | nil =>
    intro hmap s res h crec hc
    injection h with h
    subst h
    simp at hc
  | cons p rest ih =>
    obtain ⟨ctxId, handlers⟩ := p
    intro hmap s res h crec hc
    by_cases h1 : (alookup hmap ctxId).isSome
    · rw [uml_skip natsNew e ctxId handlers rest hmap s h1] at h
      obtain ⟨ha, hm⟩ := ih hmap s res h crec hc
      exact ⟨ha, by simp [hm]⟩
    · rcases hbr : alookup handlers MesheryController.mesheryBroker with _ | bh
      · rw [uml_nobroker natsNew e ctxId handlers rest hmap s h1 hbr] at h
        exact Option.noConfusion h
      · by_cases h2 : (handleGetPublicEndpoint bh).1 = ""
        · rw [uml_emptyep natsNew e ctxId handlers rest hmap s bh h1 hbr h2] at h
          obtain ⟨ha, hm⟩ := ih hmap s res h crec hc
          exact ⟨ha, by simp [hm]⟩
        · rcases hn : natsNew (handleGetPublicEndpoint bh).1 with er | conn
          · rw [uml_natsfail natsNew e ctxId handlers rest hmap s bh er h1 hbr h2 hn] at h
            obtain ⟨ha, hm⟩ := ih hmap s res h crec hc
            exact ⟨ha, by simp [hm]⟩
          · rcases hre : (Run e conn.pubErr s).error with _ | er
            · rw [uml_runok natsNew e ctxId handlers rest hmap s bh conn h1 hbr h2 hn hre] at h
              rcases hrec : updateMeshsynLoop natsNew e rest (hmap ++ [(ctxId, ⟨conn⟩)])
                  (Run e conn.pubErr s).state with _ | r
              · rw [hrec] at h
                exact Option.noConfusion h
              · rw [hrec] at h
                injection h with h
                subst h
                simp only [AttachResult.created, List.mem_cons] at hc
                rcases hc with rfl | hcr
                · refine ⟨Option.not_isSome_iff_eq_none.mp h1, by simp⟩
                · obtain ⟨ha, hm⟩ := ih (hmap ++ [(ctxId, ⟨conn⟩)])
                    (Run e conn.pubErr s).state r hrec crec hcr
                  exact ⟨alookup_append_eq_none hmap _ _ ha, by simp [hm]⟩
            · rw [uml_runfail natsNew e ctxId handlers rest hmap s bh conn er h1 hbr h2 hn hre] at h
              rcases hrec : updateMeshsynLoop natsNew e rest hmap
                  (Run e conn.pubErr s).state with _ | r
              · rw [hrec] at h
                exact Option.noConfusion h
              · rw [hrec] at h
                injection h with h
                subst h
                simp only [AttachResult.created, List.mem_cons] at hc
                rcases hc with rfl | hcr
                · refine ⟨Option.not_isSome_iff_eq_none.mp h1, by simp⟩
                · obtain ⟨ha, hm⟩ := ih hmap (Run e conn.pubErr s).state r hrec crec hcr
                  exact ⟨ha, by simp [hm]⟩

/-- A context attached by the pass corresponds to a constructed handler
whose Run returned no error. -/
lemma uml_stored (natsNew : String → Except Err NatsConn) (e : DBExec σ) :
    ∀ (ctxCtrl : List (String × CtrlHandlersEntry))
      (hmap : List (String × MeshsyncDataHandlerM)) (s : σ) (res : AttachResult σ),
    updateMeshsynLoop natsNew e ctxCtrl hmap s = some res →
    ∀ id, alookup hmap id = none → (alookup res.handlerMap id).isSome →
    ∃ crec ∈ res.created, crec.ctxId = id ∧ crec.runError = none := by
  intro ctxCtrl
  induction ctxCtrl with
  | nil =>
    intro hmap s res h id hid hsome
    injection h with h
    subst h
    rw [show (AttachResult.mk hmap s ([] : List CreatedRec)).handlerMap = hmap from rfl] at hsome
    rw [hid] at hsome
    simp at hsome
  | cons p rest ih =>
    obtain ⟨ctxId, handlers⟩ := p
    intro hmap s res h id hid hsome
    by_cases h1 : (alookup hmap ctxId).isSome
    · rw [uml_skip natsNew e ctxId handlers rest hmap s h1] at h
      exact ih hmap s res h id hid hsome
    · rcases hbr : alookup handlers MesheryController.mesheryBroker with _ | bh
      · rw [uml_nobroker natsNew e ctxId handlers rest hmap s h1 hbr] at h
        exact Option.noConfusion h
      · by_cases h2 : (handleGetPublicEndpoint bh).1 = ""
        · rw [uml_emptyep natsNew e ctxId handlers rest hmap s bh h1 hbr h2] at h
          exact ih hmap s res h id hid hsome
        · rcases hn : natsNew (handleGetPublicEndpoint bh).1 with er | conn
          · rw [uml_natsfail natsNew e ctxId handlers rest hmap s bh er h1 hbr h2 hn] at h
            exact ih hmap s res h id hid hsome
          · rcases hre : (Run e conn.pubErr s).error with _ | er
            · rw [uml_runok natsNew e ctxId handlers rest hmap s bh conn h1 hbr h2 hn hre] at h
              rcases hrec : updateMeshsynLoop natsNew e rest (hmap ++ [(ctxId, ⟨conn⟩)])
                  (Run e conn.pubErr s).state with _ | r
              · rw [hrec] at h
                exact Option.noConfusion h
              · rw [hrec] at h
                injection h with h
                subst h
                by_cases hidc : id = ctxId
                · subst hidc
                  exact ⟨⟨id, decide (RunAction.startEventsLoop ∈ (Run e conn.pubErr s).acts),
                      (Run e conn.pubErr s).error⟩, by simp, rfl, hre⟩
                · have hid2 : alookup (hmap ++ [(ctxId, ⟨conn⟩)]) id = none := by
                    rw [alookup_append, hid]
                    exact alookup_single_ne ctxId id _ (fun hh => hidc hh.symm)
                  obtain ⟨crec, hcm, hcid, hcerr⟩ := ih (hmap ++ [(ctxId, ⟨conn⟩)])
                    (Run e conn.pubErr s).state r hrec id hid2 hsome
                  exact ⟨crec, by simp [hcm], hcid, hcerr⟩
            · rw [uml_runfail natsNew e ctxId handlers rest hmap s bh conn er h1 hbr h2 hn hre] at h
              rcases hrec : updateMeshsynLoop natsNew e rest hmap
                  (Run e conn.pubErr s).state with _ | r
              · rw [hrec] at h
                exact Option.noConfusion h
              · rw [hrec] at h
                injection h with h
                subst h
                obtain ⟨crec, hcm, hcid, hcerr⟩ :=
                  ih hmap (Run e conn.pubErr s).state r hrec id hid hsome
                exact ⟨crec, by simp [hcm], hcid, hcerr⟩

/-- The attachment pass keeps the handler map free of duplicate contexts:
at most one stored accumulator per context. -/
lemma uml_nodup (natsNew : String → Except Err NatsConn) (e : DBExec σ) :
    ∀ (ctxCtrl : List (String × CtrlHandlersEntry))
      (hmap : List (String × MeshsyncDataHandlerM)) (s : σ) (res : AttachResult σ),
    updateMeshsynLoop natsNew e ctxCtrl hmap s = some res →
    (hmap.map Prod.fst).Nodup → (res.handlerMap.map Prod.fst).Nodup := by
  intro ctxCtrl
  induction ctxCtrl with
  | nil =>
    intro hmap s res h hnd
    injection h with h
    subst h
    exact hnd
  | cons p rest ih =>
    obtain ⟨ctxId, handlers⟩ := p
    intro hmap s res h hnd
    by_cases h1 : (alookup hmap ctxId).isSome
    · rw [uml_skip natsNew e ctxId handlers rest hmap s h1] at h
      exact ih hmap s res h hnd
    · rcases hbr : alookup handlers MesheryController.mesheryBroker with _ | bh
      · rw [uml_nobroker natsNew e ctxId handlers rest hmap s h1 hbr] at h
        exact Option.noConfusion h
      · by_cases h2 : (handleGetPublicEndpoint bh).1 = ""
        · rw [uml_emptyep natsNew e ctxId handlers rest hmap s bh h1 hbr h2] at h
          exact ih hmap s res h hnd
        · rcases hn : natsNew (handleGetPublicEndpoint bh).1 with er | conn
          · rw [uml_natsfail natsNew e ctxId handlers rest hmap s bh er h1 hbr h2 hn] at h
            exact ih hmap s res h hnd
          · rcases hre : (Run e conn.pubErr s).error with _ | er
            · rw [uml_runok natsNew e ctxId handlers rest hmap s bh conn h1 hbr h2 hn hre] at h
              rcases hrec : updateMeshsynLoop natsNew e rest (hmap ++ [(ctxId, ⟨conn⟩)])
                  (Run e conn.pubErr s).state with _ | r
              · rw [hrec] at h
                exact Option.noConfusion h
              · rw [hrec] at h
                injection h with h
                subst h
                have hnotmem : ctxId ∉ hmap.map Prod.fst := by
                  intro hmem
                  exact h1 (alookup_isSome_of_mem_keys hmap ctxId hmem)
                have hnd2 : ((hmap ++ [(ctxId, (⟨conn⟩ : MeshsyncDataHandlerM))]).map
                    Prod.fst).Nodup := by
                  rw [List.map_append]
                  simp [List.nodup_append, hnd, hnotmem]
                exact ih (hmap ++ [(ctxId, ⟨conn⟩)]) (Run e conn.pubErr s).state r hrec hnd2
            · rw [uml_runfail natsNew e ctxId handlers rest hmap s bh conn er h1 hbr h2 hn hre] at h
              rcases hrec : updateMeshsynLoop natsNew e rest hmap
                  (Run e conn.pubErr s).state with _ | r
              · rw [hrec] at h
                exact Option.noConfusion h
              · rw [hrec] at h
                injection h with h
                subst h
                exact ih hmap (Run e conn.pubErr s).state r hrec hnd

/-- C6 counterexample: with a broker whose connections fail every publish,
Run fails after its subscription loops have already started, the context is
left unattached, and invoking the attachment pass twice therefore constructs
two handlers for ctx1, both with their loops started and neither ever
stopped — two concurrently running accumulators for one context, refuting
the claim that a second invocation can never produce them. -/
theorem c6_counterexample :
    attachTwice pubFailNats meshDBExec c6CtrlMap [] ([] : MeshDB) =
      some ⟨[], [],
        [⟨"ctx1", true, some "publish failed"⟩,
         ⟨"ctx1", true, some "publish failed"⟩]⟩ := by
  decide

/-- C6 as amended: the attachment pass creates and runs a handler only for
registered contexts absent from the handler map, stores a handler only when
its Run returned without error, never disturbs an attached context, and
keeps at most one stored handler per context — but when Run fails after its
loops have started (publish failure), the context stays unattached while the
loops run on, so re-invocation can start a second set of loops. -/
theorem c6_amended_at_most_one_stored (natsNew : String → Except Err NatsConn)
    (e : DBExec σ) (ctxCtrl : List (String × CtrlHandlersEntry))
    (hmap : List (String × MeshsyncDataHandlerM)) (s : σ)
    (hb : ∀ p ∈ ctxCtrl, (alookup p.2 MesheryController.mesheryBroker).isSome)
    (hnd : (hmap.map Prod.fst).Nodup) :
    ∃ res, updateMeshsynLoop natsNew e ctxCtrl hmap s = some res ∧
      (∀ id, (alookup hmap id).isSome → alookup res.handlerMap id = alookup hmap id) ∧
      (∀ crec ∈ res.created,
        alookup hmap crec.ctxId = none ∧ crec.ctxId ∈ ctxCtrl.map Prod.fst) ∧
      (∀ id, alookup hmap id = none → (alookup res.handlerMap id).isSome →
        ∃ crec ∈ res.created, crec.ctxId = id ∧ crec.runError = none) ∧
      (res.handlerMap.map Prod.fst).Nodup := by
  obtain ⟨res, hres⟩ := uml_total natsNew e ctxCtrl hb hmap s
  exact ⟨res, hres,
    fun id h => uml_pres natsNew e ctxCtrl hmap s res hres id h,
    uml_created natsNew e ctxCtrl hmap s res hres,
    uml_stored natsNew e ctxCtrl hmap s res hres,
    uml_nodup natsNew e ctxCtrl hmap s res hres hnd⟩

/-- Witness for the amended C6 at a concrete input: a healthy broker, an
empty handler map and one registered context. -/
theorem c6_amended_at_most_one_stored_witness :
    (∀ p ∈ c6CtrlMap, (alookup p.2 MesheryController.mesheryBroker).isSome) ∧
    (∃ res, updateMeshsynLoop okNats meshDBExec c6CtrlMap [] ([] : MeshDB) = some res ∧
      (∀ id, (alookup ([] : List (String × MeshsyncDataHandlerM)) id).isSome →
        alookup res.handlerMap id = alookup ([] : List (String × MeshsyncDataHandlerM)) id) ∧
      (∀ crec ∈ res.created,
        alookup ([] : List (String × MeshsyncDataHandlerM)) crec.ctxId = none ∧
          crec.ctxId ∈ c6CtrlMap.map Prod.fst) ∧
      (∀ id, alookup ([] : List (String × MeshsyncDataHandlerM)) id = none →
        (alookup res.handlerMap id).isSome →
        ∃ crec ∈ res.created, crec.ctxId = id ∧ crec.runError = none) ∧
      (res.handlerMap.map Prod.fst).Nodup) :=
  ⟨by decide,
   c6_amended_at_most_one_stored okNats meshDBExec c6CtrlMap [] ([] : MeshDB)
     (by decide) (by decide)⟩

end Meshery
